import Mathlib

/-!
Verification of the crawl-engine core of the Kwork scraping repository.

The Python sources are shallowly embedded: time is modelled by `ℚ`
(`time.time()` values and sleep durations), Python floats by `ℚ`,
and async methods holding the limiter lock become pure state-passing
functions.  Every definition mirrors one function of the sources;
the file name of the source appears in each doc comment.
-/

/-- `RateLimitConfig` from `src/utils/rate_limiter.py` (dataclass with the
same field names and default values; floats become rationals). -/
structure RateLimitConfig where
  requests_per_second : ℚ := 1
  requests_per_minute : ℚ := 30
  requests_per_hour : ℚ := 1000
  burst_size : ℕ := 5
  adaptive : Bool := true
  backoff_factor : ℚ := 2
  recovery_time : ℚ := 300
  min_delay : ℚ := 1/2
  max_delay : ℚ := 60
deriving DecidableEq

/-- Mutable state of `RateLimiter` from `src/utils/rate_limiter.py`:
the three sliding deques of request timestamps plus the adaptive fields
set in `RateLimiter.__init__`. -/
structure RateLimiterState where
  second_window : List ℚ
  minute_window : List ℚ
  hour_window : List ℚ
  current_delay : ℚ
  consecutive_errors : ℕ
  last_error_time : ℚ
  is_blocked : Bool
  block_until : ℚ
deriving DecidableEq

/-- `RateLimiter.__init__`: empty windows, `current_delay = min_delay`,
no errors, not blocked. -/
def rl_init (cfg : RateLimitConfig) : RateLimiterState :=
  { second_window := [], minute_window := [], hour_window := []
    current_delay := cfg.min_delay, consecutive_errors := 0
    last_error_time := 0, is_blocked := false, block_until := 0 }

/-- One `while`-loop of `RateLimiter._cleanup_windows`: pop entries from the
front while `now - entry > horizon`. -/
def cleanup_window (horizon now : ℚ) (w : List ℚ) : List ℚ :=
  w.dropWhile (fun t => decide (horizon < now - t))

/-- `RateLimiter._cleanup_windows(now)`. -/
def cleanup_windows (now : ℚ) (s : RateLimiterState) : RateLimiterState :=
  { s with
    second_window := cleanup_window 1 now s.second_window
    minute_window := cleanup_window 60 now s.minute_window
    hour_window := cleanup_window 3600 now s.hour_window }

/-- One window check of `RateLimiter._enforce_rate_limits`: when the window
is at or above its ceiling, the delay until the oldest entry leaves the
horizon, if positive.  (With a ceiling of zero and an empty window the
Python code would raise an `IndexError` reading `window[0]`; here that
unreachable-for-positive-ceilings case yields `none`.) -/
def window_delay (limit horizon now : ℚ) (w : List ℚ) : Option ℚ :=
  if limit ≤ (w.length : ℚ) then
    match w with
    | [] => none
    | oldest :: _ =>
      let d := horizon - (now - oldest)
      if 0 < d then some d else none
  else none

/-- The sleep performed by `RateLimiter._enforce_rate_limits` after cleanup:
the maximum of the per-window delays (`0` when no limit is hit). -/
def enforce_delay (cfg : RateLimitConfig) (now : ℚ) (s : RateLimiterState) : ℚ :=
  let delays :=
    (window_delay cfg.requests_per_second 1 now s.second_window).toList ++
    (window_delay cfg.requests_per_minute 60 now s.minute_window).toList ++
    (window_delay cfg.requests_per_hour 3600 now s.hour_window).toList
  delays.foldl max 0

/-- `RateLimiter._wait_if_blocked`: returns the sleep performed and the
state after it (the block flag is cleared only when a wait happened). -/
def wait_if_blocked (s : RateLimiterState) (now : ℚ) : ℚ × RateLimiterState :=
  if s.is_blocked = true ∧ now < s.block_until then
    (s.block_until - now, { s with is_blocked := false })
  else (0, s)

/-- `RateLimiter._add_request`: append the current timestamp to all three
windows. -/
def add_request (now : ℚ) (s : RateLimiterState) : RateLimiterState :=
  { s with
    second_window := s.second_window ++ [now]
    minute_window := s.minute_window ++ [now]
    hour_window := s.hour_window ++ [now] }

/-- The three sleeps of one `RateLimiter.acquire` call and the state it
leaves behind. -/
structure AcquireResult where
  block_wait : ℚ
  rate_wait : ℚ
  pacing : ℚ
  state : RateLimiterState
deriving DecidableEq

/-- `RateLimiter.acquire` entered at wall-clock time `now`: wait out a
block, clean the windows, sleep the maximal window delay, record the
request at the post-sleep time, then sleep `current_delay`
(`_apply_delay`). -/
def acquire (cfg : RateLimitConfig) (s : RateLimiterState) (now : ℚ) : AcquireResult :=
  let w := wait_if_blocked s now
  let t1 := now + w.1
  let s2 := cleanup_windows t1 w.2
  let rw := enforce_delay cfg t1 s2
  let s3 := add_request (t1 + rw) s2
  let pacing := if 0 < s3.current_delay then s3.current_delay else 0
  ⟨w.1, rw, pacing, s3⟩

/-- The status test `status_code in [429, 503, 521, 522, 523, 524]` of
`RateLimiter.report_error`; in Python `None in [...]` is `False`, so a
missing status code is not critical. -/
def critical_status : Option ℕ → Bool
  | some c => [429, 503, 521, 522, 523, 524].contains c
  | none => false

/-- `RateLimiter._increase_delay`. -/
def increase_delay (cfg : RateLimitConfig) (s : RateLimiterState) : RateLimiterState :=
  { s with current_delay := min (s.current_delay * cfg.backoff_factor) cfg.max_delay }

/-- `RateLimiter._decrease_delay`. -/
def decrease_delay (cfg : RateLimitConfig) (s : RateLimiterState) : RateLimiterState :=
  if cfg.min_delay < s.current_delay then
    { s with current_delay := max (s.current_delay / cfg.backoff_factor) cfg.min_delay }
  else s

/-- `RateLimiter._apply_temporary_block` at wall-clock time `now` (the
consecutive-error count has already been incremented by `report_error`). -/
def apply_temporary_block (cfg : RateLimitConfig) (now : ℚ) (s : RateLimiterState) : RateLimiterState :=
  { s with
    is_blocked := true
    block_until := now + min ((s.consecutive_errors : ℚ) * 30) cfg.recovery_time }

/-- `RateLimiter.report_error(status_code)` at wall-clock time `now`. -/
def report_error (cfg : RateLimitConfig) (s : RateLimiterState) (now : ℚ)
    (status : Option ℕ) : RateLimiterState :=
  if cfg.adaptive = false then s
  else
    let s1 := { s with consecutive_errors := s.consecutive_errors + 1, last_error_time := now }
    if critical_status status = true then
      let s2 := increase_delay cfg s1
      if status = some 429 then apply_temporary_block cfg now s2 else s2
    else s1

/-- `RateLimiter.report_success`. -/
def report_success (cfg : RateLimitConfig) (s : RateLimiterState) : RateLimiterState :=
  if cfg.adaptive = false then s
  else if 0 < s.consecutive_errors then
    let s1 := { s with consecutive_errors := s.consecutive_errors - 1 }
    if s1.consecutive_errors = 0 then decrease_delay cfg s1 else s1
  else s

/-- `RateLimiter.reset`. -/
def rl_reset (cfg : RateLimitConfig) (s : RateLimiterState) : RateLimiterState :=
  { s with
    second_window := [], minute_window := [], hour_window := []
    current_delay := cfg.min_delay, consecutive_errors := 0
    is_blocked := false, block_until := 0 }

/-- The public operations of `RateLimiter` (each tagged with the wall-clock
time at which calls to `time.time()` inside it happen). -/
inductive RLOp
  | acquire (now : ℚ)
  | reportError (now : ℚ) (status : Option ℕ)
  | reportSuccess
  | reset
deriving DecidableEq

/-- One public operation applied to the limiter state. -/
def rl_step (cfg : RateLimitConfig) (s : RateLimiterState) : RLOp → RateLimiterState
  | .acquire now => (acquire cfg s now).state
  | .reportError now status => report_error cfg s now status
  | .reportSuccess => report_success cfg s
  | .reset => rl_reset cfg s

/-- A sequence of public operations applied in order. -/
def rl_run (cfg : RateLimitConfig) (s : RateLimiterState) : List RLOp → RateLimiterState
  | [] => s
  | op :: ops => rl_run cfg (rl_step cfg s op) ops

/-- A sequence of `acquire` calls at the given wall-clock times, returning
the per-call sleeps and the final state. -/
def acquire_seq (cfg : RateLimitConfig) : RateLimiterState → List ℚ → List AcquireResult × RateLimiterState
  | s, [] => ([], s)
  | s, t :: ts =>
    let r := acquire cfg s t
    let p := acquire_seq cfg r.state ts
    (r :: p.1, p.2)

/-- `RetryConfig` from `src/utils/retry.py` (same field names and defaults). -/
structure RetryConfig where
  max_attempts : ℕ := 3
  base_delay : ℚ := 1
  max_delay : ℚ := 60
  exponential_base : ℚ := 2
  jitter : Bool := true
  backoff_multiplier : ℚ := 1
deriving DecidableEq

/-- The exception values that can reach `is_retryable_exception` in
`src/utils/retry.py`, one constructor per exception class used by the
repository (`clientResponseError` carries the HTTP status). -/
inductive PyExc
  | nonRetryableError
  | retryableError
  | aiohttpClientError
  | asyncioTimeoutError
  | connectionError
  | osError
  | clientResponseError (status : ℕ)
  | valueError
  | runtimeError
deriving DecidableEq

/-- `RETRYABLE_STATUS_CODES` membership (`is_retryable_http_status`). -/
def is_retryable_http_status (status : ℕ) : Bool :=
  [429, 500, 502, 503, 504, 521, 522, 523, 524].contains status

/-- `is_retryable_exception` from `src/utils/retry.py`.  Note that
`aiohttp.ClientResponseError` is a subclass of `aiohttp.ClientError`, which
is listed in `RETRYABLE_EXCEPTIONS`, so the `isinstance` check on line 116
already returns `True` for it and the status test on lines 120-121 is
unreachable. -/
def is_retryable_exception : PyExc → Bool
  | .nonRetryableError => false
  | .retryableError => true
  | .aiohttpClientError => true
  | .asyncioTimeoutError => true
  | .connectionError => true
  | .osError => true
  | .clientResponseError _ => true
  | .valueError => false
  | .runtimeError => false

/-- `calculate_delay(attempt, config)` from `src/utils/retry.py`.  The
argument `j` is the value sampled by `random.uniform(-jitter_range,
jitter_range)`; it is added only when jitter is enabled. -/
def calculate_delay (cfg : RetryConfig) (attempt : ℕ) (j : ℚ) : ℚ :=
  let d0 := cfg.base_delay * cfg.exponential_base ^ (attempt - 1) * cfg.backoff_multiplier
  let d1 := min d0 cfg.max_delay
  let d2 := if cfg.jitter = true then d1 + j else d1
  max 0 d2

/-- The attempt loop of `retry_async` from `src/utils/retry.py`, started at
`attempt` with `fuel` loop iterations remaining; `op k` is the outcome of
the `k`-th invocation of the wrapped operation.  Returns the final outcome
together with the number of invocations performed. -/
def retry_from {α : Type} (op : ℕ → Except PyExc α) (maxAttempts : ℕ) :
    ℕ → ℕ → Except PyExc α × ℕ
  | _, 0 => (.error .runtimeError, 0)
  | attempt, fuel + 1 =>
    match op attempt with
    | .ok a => (.ok a, 1)
    | .error e =>
      if is_retryable_exception e = false then (.error e, 1)
      else if attempt = maxAttempts then (.error e, 1)
      else
        let p := retry_from op maxAttempts (attempt + 1) fuel
        (p.1, p.2 + 1)

/-- `retry_async(func, config=cfg)` from `src/utils/retry.py`: runs the
attempt loop from attempt 1; with zero attempts the loop body never runs
and the final `RuntimeError` is raised. -/
def retry_async {α : Type} (cfg : RetryConfig) (op : ℕ → Except PyExc α) :
    Except PyExc α × ℕ :=
  if cfg.max_attempts = 0 then (.error .runtimeError, 0)
  else retry_from op cfg.max_attempts 1 cfg.max_attempts

/-- `PriceType` from `src/core/models.py`. -/
inductive PriceType
  | fixed
  | negotiable
  | hourly
  | range
deriving DecidableEq

/-- Python `str.isspace` characters relevant here (the `\s` class and
`str.strip` over the inputs of this repository). -/
def py_whitespace (c : Char) : Bool :=
  c = ' ' ∨ c = '\t' ∨ c = '\n' ∨ c = '\r' ∨ c = '\x0b' ∨ c = '\x0c'

/-- Python `str.lower` on the alphabets appearing in the sources: ASCII
letters and the basic Cyrillic block (`А`..`Я` and `Ё`). -/
def py_lower_char (c : Char) : Char :=
  if 'A' ≤ c ∧ c ≤ 'Z' then Char.ofNat (c.toNat + 32)
  else if 0x410 ≤ c.toNat ∧ c.toNat ≤ 0x42F then Char.ofNat (c.toNat + 32)
  else if c.toNat = 0x401 then Char.ofNat 0x451
  else c

/-- Python `str.strip` (drop leading and trailing whitespace). -/
def py_strip (l : List Char) : List Char :=
  ((l.dropWhile py_whitespace).reverse.dropWhile py_whitespace).reverse

/-- Python substring containment `needle in hay`. -/
def contains_sub (needle : List Char) : List Char → Bool
  | [] => needle.isEmpty
  | c :: rest => needle.isPrefixOf (c :: rest) || contains_sub needle rest

/-- `re.search` of a single character class applied one or more times
(`[...]+`): the first maximal run of characters of the class, if any. -/
def first_run (p : Char → Bool) : List Char → Option (List Char)
  | [] => none
  | c :: cs => if p c then some (c :: cs.takeWhile p) else first_run p cs

/-- The character class `[\d\s,\.]` of `KworkParser._parse_price`. -/
def price_char (c : Char) : Bool :=
  c.isDigit || py_whitespace c || c = ',' || c = '.'

/-- The cleanup `group().replace(' ', '').replace(',', '.')` in
`KworkParser._parse_price`. -/
def normalize_number (l : List Char) : List Char :=
  (l.filter (fun c => c ≠ ' ')).map (fun c => if c = ',' then '.' else c)

/-- Digit-list value (same digits-to-number reading Python uses). -/
def digits_to_nat (l : List Char) : ℕ :=
  l.foldl (fun a c => 10 * a + (c.toNat - 48)) 0

/-- Python `float()` on the strings reachable in `_parse_price` after
normalization (only digits and dots can remain): at least one digit and at
most one dot, otherwise `ValueError` (`none`). -/
def py_float : List Char → Option ℚ :=
  fun l =>
    match l.splitOn '.' with
    | [ip] =>
      if ip ≠ [] ∧ ip.all Char.isDigit then some (digits_to_nat ip) else none
    | [ip, fp] =>
      if (ip ≠ [] ∨ fp ≠ []) ∧ ip.all Char.isDigit ∧ fp.all Char.isDigit then
        some ((digits_to_nat ip : ℚ) + (digits_to_nat fp : ℚ) / (10 : ℚ) ^ fp.length)
      else none
    | _ => none

/-- The negotiable keyword list of `KworkParser._parse_price`. -/
def negotiable_keywords : List (List Char) :=
  ["договорная".data, "по договоренности".data, "договор".data,
   "negotiable".data, "tbd".data, "обсуждается".data]

/-- `KworkParser._parse_price` from `src/core/parser.py`. -/
def parse_price (price_text : String) : Option ℚ × PriceType :=
  let raw := price_text.data
  if raw = [] then (none, PriceType.negotiable)
  else
    let t := py_strip (raw.map py_lower_char)
    if negotiable_keywords.any (fun k => contains_sub k t) then
      (none, PriceType.negotiable)
    else
      match first_run price_char t with
      | none => (none, PriceType.negotiable)
      | some run =>
        match py_float (normalize_number run) with
        | none => (none, PriceType.negotiable)
        | some price =>
          if contains_sub "час".data t || contains_sub "hour".data t then
            (some price, PriceType.hourly)
          else if contains_sub "-".data t || contains_sub "от".data t ||
              contains_sub "до".data t then
            (some price, PriceType.range)
          else (some price, PriceType.fixed)

/-- `re.search(r'/(\d+)', link)` in `KworkParser.extract_project_data`:
the first maximal digit run immediately following a `/`. -/
def first_slash_digits : List Char → Option (List Char)
  | [] => none
  | '/' :: rest =>
    match rest.takeWhile Char.isDigit with
    | [] => first_slash_digits rest
    | ds => some ds
  | _ :: rest => first_slash_digits rest

/-- The identity-resolution slice of `KworkParser.extract_project_data`
(lines 432-462 of `src/core/parser.py`): data attribute, else numeric link
segment, else `str(hash(project_link))`.  `py_hash` is the process's string
hash function (Python randomizes string hashing per process via
`PYTHONHASHSEED`, so it is a parameter of the run, not a constant). -/
def resolve_external_id (py_hash : String → ℤ) (data_want_id : Option String)
    (project_link : String) : String :=
  match data_want_id with
  | some i => i
  | none =>
    match first_slash_digits project_link.data with
    | some ds => String.mk ds
    | none => toString (py_hash project_link)

/-- The slice of the `Project` model (`src/core/models.py`) consulted by
`parse_all_pages`: only `external_id` is read by the dedup filter; `title`
stands for the rest of the record. -/
structure Project where
  external_id : String
  title : String
deriving DecidableEq

/-- The pagination dictionary built by
`KworkParser._extract_pagination_info` (`src/core/parser.py`). -/
structure PaginationInfo where
  current_page : ℕ := 1
  total_pages : ℕ := 1
  has_next : Bool := false
  next_page_url : Option String := none
  total_projects : ℕ := 0
deriving DecidableEq

/-- The outcome of `KworkParser.parse_single_page` for one page: the
extracted listing batch and the pagination metadata.  (On a page-level
error that method returns `([], {})`, with `get("has_next", False)`
reading `false`, so the failure case is the value `⟨[], default⟩`.) -/
structure PageResult where
  projects : List Project
  pagination : PaginationInfo
deriving DecidableEq

/-- The dedup filter inside `KworkParser.parse_all_pages`: keep projects
whose `external_id` the repository does not already contain. -/
def dedup_filter (repo : List String) (ps : List Project) : List Project :=
  ps.filter (fun p => !(repo.contains p.external_id))

/-- The repository filter step of `parse_all_pages` (skipped when no
repository was injected). -/
def repo_filter (repo : Option (List String)) (ps : List Project) : List Project :=
  match repo with
  | some ids => dedup_filter ids ps
  | none => ps

/-- The `if max_pages and current_page > max_pages` guard of
`parse_all_pages`; Python truthiness makes `max_pages = 0` mean "no
limit". -/
def page_limit_reached (maxPages : Option ℕ) (current : ℕ) : Bool :=
  match maxPages with
  | some m => m ≠ 0 && current > m
  | none => false

/-- `KworkParser.parse_all_pages` (`src/core/parser.py`, lines 754-809),
as the list of yielded batches.  `pages n` is the result of
`parse_single_page` for page `n`; `fuel` bounds the number of loop
iterations (the claims below concern runs that finish within it). -/
def parse_all_pages (pages : ℕ → PageResult) (maxPages : Option ℕ)
    (repo : Option (List String)) : ℕ → ℕ → List (List Project)
  | 0, _ => []
  | fuel + 1, current =>
    if page_limit_reached maxPages current then []
    else
      let pr := pages current
      if pr.projects = [] ∧ current = 1 then []
      else
        let filtered := repo_filter repo pr.projects
        filtered ::
          (if pr.pagination.has_next then
            parse_all_pages pages maxPages repo fuel (current + 1)
          else [])

/-- A parsed document as the selector layer sees it: its CPython runtime
identity `id(soup)` (transient, reusable once the object is collected) and
which CSS selector expressions select at least one element in it. -/
structure Document where
  runtime_id : ℕ
  selects : String → Bool

/-- `SelectorMatcher.get_all_selectors` for the fields used by
`extract_project_data`, from the `KworkSelectors` and `KworkSelectorsAlt`
tables of `src/core/selectors.py` (primary first, fallback second). -/
def get_all_selectors (field_name : String) : List String :=
  if field_name = "project_title" then
    [".wants-card__header-title a", "h3 a, .title a, .project-title a"]
  else if field_name = "description" then
    [".wants-card__description-text", ".description, .content, .text, p"]
  else if field_name = "price_container" then
    [".wants-card__price", ".price, .cost, .amount, [class*='price']"]
  else if field_name = "author_name" then
    [".wants-card__header-username", ".author, .username, .user-name, [class*='user']"]
  else []

/-- Lookup in a cache dictionary keyed like the Python string key
`f"{field_name}_{id(soup)}"`. -/
def cache_lookup (key : String × ℕ) :
    List ((String × ℕ) × String) → Option String
  | [] => none
  | (k, v) :: rest => if k = key then some v else cache_lookup key rest

/-- `SelectorMatcher.test_selector` (`src/core/selectors.py`): consult the
`_cached_selectors` dictionary under the key `(field_name, id(soup))`; on a
miss, return the first candidate selector that selects elements, recording
it in the cache.  The cache is created once in `__init__` and never
cleared. -/
def test_selector (cache : List ((String × ℕ) × String)) (doc : Document)
    (field_name : String) : Option String × List ((String × ℕ) × String) :=
  let key := (field_name, doc.runtime_id)
  match cache_lookup key cache with
  | some sel => (some sel, cache)
  | none =>
    match (get_all_selectors field_name).find? doc.selects with
    | some sel => (some sel, (key, sel) :: cache)
    | none => (none, cache)

/-- The two id-keyed caches threaded through selector resolution:
`KworkParser._selector_cache` and the global
`SelectorMatcher._cached_selectors`; neither is ever cleared. -/
structure SelectorCaches where
  parser_cache : List ((String × ℕ) × String)
  matcher_cache : List ((String × ℕ) × String)
deriving DecidableEq

/-- `KworkParser._get_working_selector` (`src/core/parser.py`, lines
224-245): consult the parser's own cache under `(field_name, id(soup))`,
else call `selector_matcher.test_selector` and record a non-`None`
winner. -/
def get_working_selector (st : SelectorCaches) (doc : Document)
    (field_name : String) : Option String × SelectorCaches :=
  let key := (field_name, doc.runtime_id)
  match cache_lookup key st.parser_cache with
  | some sel => (some sel, st)
  | none =>
    let r := test_selector st.matcher_cache doc field_name
    match r.1 with
    | some sel => (some sel, ⟨(key, sel) :: st.parser_cache, r.2⟩)
    | none => (none, { st with matcher_cache := r.2 })

/-- `DESKTOP_CHROME_AGENTS` from `src/utils/user_agents.py`. -/
def DESKTOP_CHROME_AGENTS : List String :=
  ["Mozilla/5.0 (Windows NT 10.0; Win64; x64) AppleWebKit/537.36 (KHTML, like Gecko) Chrome/120.0.0.0 Safari/537.36",
   "Mozilla/5.0 (Windows NT 10.0; Win64; x64) AppleWebKit/537.36 (KHTML, like Gecko) Chrome/119.0.0.0 Safari/537.36",
   "Mozilla/5.0 (Windows NT 10.0; Win64; x64) AppleWebKit/537.36 (KHTML, like Gecko) Chrome/118.0.0.0 Safari/537.36",
   "Mozilla/5.0 (Macintosh; Intel Mac OS X 10_15_7) AppleWebKit/537.36 (KHTML, like Gecko) Chrome/120.0.0.0 Safari/537.36",
   "Mozilla/5.0 (Macintosh; Intel Mac OS X 10_15_7) AppleWebKit/537.36 (KHTML, like Gecko) Chrome/119.0.0.0 Safari/537.36",
   "Mozilla/5.0 (X11; Linux x86_64) AppleWebKit/537.36 (KHTML, like Gecko) Chrome/120.0.0.0 Safari/537.36",
   "Mozilla/5.0 (X11; Linux x86_64) AppleWebKit/537.36 (KHTML, like Gecko) Chrome/119.0.0.0 Safari/537.36",
   "Mozilla/5.0 (Windows NT 11.0; Win64; x64) AppleWebKit/537.36 (KHTML, like Gecko) Chrome/120.0.0.0 Safari/537.36"]

/-- Header dictionary lookup (`headers[name]`); later `update` entries are
appended, and no key is inserted twice in the modelled methods, so
first-match lookup agrees with the Python dict. -/
def header_lookup (name : String) : List (String × String) → Option String
  | [] => none
  | (k, v) :: rest => if k = name then some v else header_lookup name rest

/-- `UserAgentRotator.get_headers` from `src/utils/user_agents.py` (lines
188-225) with `additional_headers=None`, given that `get_user_agent()`
returned `ua`: the static header block, plus — whenever the string
`"Chrome"` occurs in the user-agent — the `sec-ch-ua*` block with the
hard-coded platform `"Windows"`. -/
def rotator_get_headers (ua : String) : List (String × String) :=
  [("User-Agent", ua),
   ("Accept", "text/html,application/xhtml+xml,application/xml;q=0.9,image/avif,image/webp,image/apng,*/*;q=0.8,application/signed-exchange;v=b3;q=0.7"),
   ("Accept-Language", "ru-RU,ru;q=0.9,en;q=0.8"),
   ("Accept-Encoding", "gzip, deflate, br"),
   ("DNT", "1"),
   ("Connection", "keep-alive"),
   ("Upgrade-Insecure-Requests", "1"),
   ("Sec-Fetch-Dest", "document"),
   ("Sec-Fetch-Mode", "navigate"),
   ("Sec-Fetch-Site", "none"),
   ("Sec-Fetch-User", "?1"),
   ("Cache-Control", "max-age=0")] ++
  (if contains_sub "Chrome".data ua.data then
    [("sec-ch-ua", "\"Not_A Brand\";v=\"8\", \"Chromium\";v=\"120\", \"Google Chrome\";v=\"120\""),
     ("sec-ch-ua-mobile", "?0"),
     ("sec-ch-ua-platform", "\"Windows\"")]
  else [])

/-- `BrowserProfile._detect_os_type` from `src/utils/user_agents.py`. -/
def detect_os_type (ua : String) : String :=
  let l := ua.data.map py_lower_char
  if contains_sub "windows".data l then "windows"
  else if contains_sub "mac os x".data l || contains_sub "macos".data l then "macos"
  else if contains_sub "linux".data l then "linux"
  else if contains_sub "iphone".data l || contains_sub "ipad".data l then "ios"
  else if contains_sub "android".data l then "android"
  else "unknown"

/-- `BrowserProfile._detect_browser_type` from `src/utils/user_agents.py`. -/
def detect_browser_type (ua : String) : String :=
  let l := ua.data.map py_lower_char
  if contains_sub "chrome".data l && !(contains_sub "edg".data l) then "chrome"
  else if contains_sub "firefox".data l then "firefox"
  else if contains_sub "safari".data l && !(contains_sub "chrome".data l) then "safari"
  else if contains_sub "edg".data l then "edge"
  else "unknown"

/-- `BrowserProfile.get_headers` from `src/utils/user_agents.py` (lines
289-327): base headers, a Chrome/Edge block whose `sec-ch-ua-platform`
follows the detected OS, and a Firefox `Accept` override.  (Python dict
`update` overwrites `Accept`; the model keeps the overriding entry first so
`header_lookup` sees the updated value.) -/
def browser_profile_headers (ua : String) : List (String × String) :=
  let base :=
    [("User-Agent", ua),
     ("Accept-Language", "ru-RU,ru;q=0.9,en;q=0.8"),
     ("Accept-Encoding", "gzip, deflate, br"),
     ("DNT", "1"),
     ("Connection", "keep-alive"),
     ("Upgrade-Insecure-Requests", "1")]
  let bt := detect_browser_type ua
  if bt = "chrome" ∨ bt = "edge" then
    [("Accept", "text/html,application/xhtml+xml,application/xml;q=0.9,image/avif,image/webp,image/apng,*/*;q=0.8,application/signed-exchange;v=b3;q=0.7"),
     ("Sec-Fetch-Dest", "document"),
     ("Sec-Fetch-Mode", "navigate"),
     ("Sec-Fetch-Site", "none"),
     ("Sec-Fetch-User", "?1"),
     ("sec-ch-ua", "\"Not_A Brand\";v=\"8\", \"Chromium\";v=\"120\""),
     ("sec-ch-ua-mobile", "?0")] ++
    (let os := detect_os_type ua
     if os = "windows" then [("sec-ch-ua-platform", "\"Windows\"")]
     else if os = "macos" then [("sec-ch-ua-platform", "\"macOS\"")]
     else if os = "linux" then [("sec-ch-ua-platform", "\"Linux\"")]
     else []) ++ base
  else if bt = "firefox" then
    [("Accept", "text/html,application/xhtml+xml,application/xml;q=0.9,image/avif,image/webp,*/*;q=0.8")] ++ base
  else ("Accept", "text/html,application/xhtml+xml,application/xml;q=0.9,*/*;q=0.8") :: base

/-- The default `RateLimitConfig()` (all dataclass defaults). -/
def std_rate_config : RateLimitConfig := {}

/-- A `RateLimitConfig` the constructor accepts whose backoff factor is
below one. -/
def half_backoff_config : RateLimitConfig :=
  { backoff_factor := 1/2, min_delay := 1, max_delay := 2 }

/-- A `RateLimitConfig` the constructor accepts whose per-minute ceiling is
below its per-second ceiling. -/
def inverted_window_config : RateLimitConfig :=
  { requests_per_second := 2, requests_per_minute := 1 }

/-- A `RateLimitConfig` with a per-second ceiling of two and the remaining
defaults. -/
def two_per_second_config : RateLimitConfig := { requests_per_second := 2 }

/-- The default `RetryConfig()` (`max_attempts = 3`, `base_delay = 1`,
`exponential_base = 2`). -/
def std_retry_config : RetryConfig := {}

/-- A `RetryConfig` the dataclass accepts whose base delay is negative. -/
def negative_delay_retry_config : RetryConfig := { base_delay := -1, jitter := false }

/-- Claim C6: the price parser maps the five literal inputs of the spec to
exactly the stated results: a plain rouble amount is `fixed`, the
negotiable keyword yields no price, an hourly rate is `hourly`, a
from-to range returns its first number as `range`, and non-numeric text
falls back to `negotiable`. -/
theorem parse_price_literal_cases :
    parse_price "50000 руб." = (some 50000, PriceType.fixed) ∧
    parse_price "договорная" = (none, PriceType.negotiable) ∧
    parse_price "1500 руб/час" = (some 1500, PriceType.hourly) ∧
    parse_price "от 10000 до 20000" = (some 10000, PriceType.range) ∧
    parse_price "not a price" = (none, PriceType.negotiable) := by
  refine ⟨?_, ?_, ?_, ?_, ?_⟩ <;> decide

/-- Claim C1: the fallback external id is `str(hash(project_link))`, and
Python string hashing is randomized per process, so the id produced for a
link with no data attribute and no numeric segment is a function of the
process's hash — two processes whose hash functions differ on the link
produce different external ids, contradicting cross-run determinism. -/
theorem external_id_fallback_depends_on_process_hash :
    resolve_external_id (fun _ => 0) none "https://kwork.ru/abc" = "0" ∧
    resolve_external_id (fun _ => 1) none "https://kwork.ru/abc" = "1" ∧
    first_slash_digits "https://kwork.ru/abc".data = none ∧
    ("0" : String) ≠ "1" := by
  refine ⟨?_, ?_, ?_, ?_⟩ <;> decide

/-- Claim C8: the selector caches are keyed by the transient CPython
`id(soup)` and are never cleared, so when a later parse pass allocates a
different document at a recycled id, `_get_working_selector` returns the
stale winning selector of the dead document: here document `B` matches
only the fallback description selector, yet the primary selector cached
for the dead document `A` (same runtime id 7) is returned for it. -/
theorem selector_cache_leaks_across_documents :
    (get_working_selector
        (get_working_selector ⟨[], []⟩
          ⟨7, fun sel => sel = ".wants-card__description-text"⟩ "description").2
        ⟨7, fun sel => sel = ".description, .content, .text, p"⟩ "description").1
      = some ".wants-card__description-text" ∧
    (get_working_selector ⟨[], []⟩
        ⟨7, fun sel => sel = ".description, .content, .text, p"⟩ "description").1
      = some ".description, .content, .text, p" ∧
    (".wants-card__description-text" : String) ≠ ".description, .content, .text, p" := by
  refine ⟨?_, ?_, ?_⟩ <;> decide

/-- Claim C9: `UserAgentRotator.get_headers` hard-codes
`sec-ch-ua-platform: "Windows"` for every user-agent containing
`"Chrome"`, so the macOS Chrome fingerprint of the pool is served with a
Windows platform hint while its user-agent states Mac OS X — the header
set is not coherent with the fingerprint's OS family. -/
theorem rotator_headers_platform_mismatch :
    "Mozilla/5.0 (Macintosh; Intel Mac OS X 10_15_7) AppleWebKit/537.36 (KHTML, like Gecko) Chrome/120.0.0.0 Safari/537.36"
      ∈ DESKTOP_CHROME_AGENTS ∧
    header_lookup "sec-ch-ua-platform"
      (rotator_get_headers
        "Mozilla/5.0 (Macintosh; Intel Mac OS X 10_15_7) AppleWebKit/537.36 (KHTML, like Gecko) Chrome/120.0.0.0 Safari/537.36")
      = some "\"Windows\"" ∧
    detect_os_type
      "Mozilla/5.0 (Macintosh; Intel Mac OS X 10_15_7) AppleWebKit/537.36 (KHTML, like Gecko) Chrome/120.0.0.0 Safari/537.36"
      = "macos" ∧
    ("macos" : String) ≠ "windows" := by
  refine ⟨?_, ?_, ?_, ?_⟩ <;> decide

/-- Claim C2 counterexample: with the default adaptive config, a
`report_error` carrying no status code (a transport failure) leaves
`current_delay` unchanged at `min_delay`, instead of multiplying it by the
backoff factor as the claim states — in Python `None in [429, ...]` is
`False`, so the no-status branch never reaches `_increase_delay`. -/
theorem report_error_transport_failure_keeps_delay :
    std_rate_config.adaptive = true ∧
    (report_error std_rate_config (rl_init std_rate_config) 0 none).current_delay = 1/2 ∧
    min ((rl_init std_rate_config).current_delay * std_rate_config.backoff_factor)
        std_rate_config.max_delay = 1 ∧
    ((1 : ℚ)/2) ≠ 1 := by
  refine ⟨rfl, ?_, ?_, by norm_num⟩
  · simp [report_error, rl_init, std_rate_config, critical_status]
  · simp [rl_init, std_rate_config, min_def]

/-- Claim C3 counterexample: with per-second ceiling `N = 2` but a
per-minute ceiling of `1`, the second of two `acquire` calls issued half a
second apart is delayed `59.5` seconds by the minute window — a sequence of
exactly `N` calls within one second does incur a rate-window delay. -/
theorem minute_window_delays_within_second_burst :
    ((acquire_seq inverted_window_config (rl_init inverted_window_config)
        [0, 1/2]).1.map AcquireResult.rate_wait) = [0, 119/2] ∧
    ((119 : ℚ)/2) ≠ 0 := by
  refine ⟨?_, by norm_num⟩
  simp [acquire_seq, acquire, wait_if_blocked, cleanup_windows, cleanup_window,
    enforce_delay, window_delay, add_request, rl_init, inverted_window_config,
    max_def, min_def]
  norm_num

/-- Claim C5 counterexample: for the accepted config with
`base_delay = -1` and jitter disabled, the clamped formula at attempt 1 is
`-1` but `calculate_delay` returns `0` (the final floor), so "without
jitter it equals the clamped formula exactly" fails. -/
theorem calculate_delay_negative_clamp_counterexample :
    calculate_delay negative_delay_retry_config 1 0 = 0 ∧
    min (negative_delay_retry_config.base_delay *
          negative_delay_retry_config.exponential_base ^ (1 - 1) *
          negative_delay_retry_config.backoff_multiplier)
        negative_delay_retry_config.max_delay = -1 ∧
    (0 : ℚ) ≠ -1 := by
  refine ⟨?_, ?_, by norm_num⟩
  · simp [calculate_delay, negative_delay_retry_config, min_def, max_def]
    norm_num
  · simp [negative_delay_retry_config, min_def]
    norm_num

/-- Claim C10 counterexample: the constructor accepts
`backoff_factor = 1/2` with `min_delay = 1 ≤ max_delay = 2`, and a single
critical `report_error` then drives `current_delay` to `1/2`, strictly
below `min_delay` — the invariant is not preserved for every config with
`min_delay ≤ max_delay`. -/
theorem delay_invariant_fails_for_small_backoff :
    half_backoff_config.min_delay ≤ half_backoff_config.max_delay ∧
    (rl_run half_backoff_config (rl_init half_backoff_config)
        [RLOp.reportError 0 (some 503)]).current_delay = 1/2 ∧
    ¬ half_backoff_config.min_delay ≤ (1 : ℚ)/2 := by
  refine ⟨by norm_num [half_backoff_config], ?_, by norm_num [half_backoff_config]⟩
  simp [rl_run, rl_step, report_error, rl_init, half_backoff_config, critical_status,
    increase_delay, apply_temporary_block, min_def]
  norm_num

/-- Claim C2 (amended): in adaptive mode `report_error` increments the
consecutive-error count; for a status in {429, 503, 521, 522, 523, 524}
it multiplies `current_delay` by the backoff factor capped at `max_delay`;
when no status code is given (transport failure) the delay is left
unchanged; and for status 429 it sets a temporary block of duration
`min(consecutive_errors * 30, recovery_time)`. -/
theorem report_error_adaptive_spec (cfg : RateLimitConfig) (s : RateLimiterState)
    (now : ℚ) (status : Option ℕ) (hA : cfg.adaptive = true) :
    (report_error cfg s now status).consecutive_errors = s.consecutive_errors + 1 ∧
    (critical_status status = true →
      (report_error cfg s now status).current_delay =
        min (s.current_delay * cfg.backoff_factor) cfg.max_delay) ∧
    (status = none →
      (report_error cfg s now status).current_delay = s.current_delay) ∧
    (status = some 429 →
      (report_error cfg s now status).is_blocked = true ∧
      (report_error cfg s now status).block_until =
        now + min (((s.consecutive_errors : ℚ) + 1) * 30) cfg.recovery_time) := by
  refine ⟨?_, ?_, ?_, ?_⟩
  · by_cases hc : critical_status status = true
    · by_cases h9 : status = some 429
      · subst h9
        simp [report_error, hA, hc, increase_delay, apply_temporary_block]
      · simp [report_error, hA, hc, h9, increase_delay]
    · simp [report_error, hA, hc]
  · intro hc
    by_cases h9 : status = some 429
    · subst h9
      simp [report_error, hA, hc, increase_delay, apply_temporary_block]
    · simp [report_error, hA, hc, h9, increase_delay]
  · intro hn
    subst hn
    simp [report_error, hA, critical_status]
  · intro h9
    subst h9
    have hc : critical_status (some 429) = true := rfl
    refine ⟨?_, ?_⟩
    · simp [report_error, hA, hc, increase_delay, apply_temporary_block]
    · simp [report_error, hA, hc, increase_delay, apply_temporary_block]

/-- Witness for `report_error_adaptive_spec` at the default config with a
429 status. -/
theorem report_error_adaptive_spec_witness :
    (report_error std_rate_config (rl_init std_rate_config) 5 (some 429)).consecutive_errors
        = (rl_init std_rate_config).consecutive_errors + 1 ∧
    (critical_status (some 429) = true →
      (report_error std_rate_config (rl_init std_rate_config) 5 (some 429)).current_delay =
        min ((rl_init std_rate_config).current_delay * std_rate_config.backoff_factor)
          std_rate_config.max_delay) ∧
    (some 429 = (none : Option ℕ) →
      (report_error std_rate_config (rl_init std_rate_config) 5 (some 429)).current_delay =
        (rl_init std_rate_config).current_delay) ∧
    (some 429 = some 429 →
      (report_error std_rate_config (rl_init std_rate_config) 5 (some 429)).is_blocked = true ∧
      (report_error std_rate_config (rl_init std_rate_config) 5 (some 429)).block_until =
        5 + min ((((rl_init std_rate_config).consecutive_errors : ℚ) + 1) * 30)
          std_rate_config.recovery_time) :=
  report_error_adaptive_spec std_rate_config (rl_init std_rate_config) 5 (some 429) rfl

/-- The attempt loop on an operation that fails with a retryable error at
every invocation runs its remaining fuel down to the last attempt and
re-raises that attempt's error. -/
theorem retry_from_all_retryable {α : Type} (op : ℕ → Except PyExc α) (e : ℕ → PyExc)
    (hop : ∀ k, op k = .error (e k))
    (hr : ∀ k, is_retryable_exception (e k) = true) (maxA : ℕ) :
    ∀ (fuel attempt : ℕ), attempt + fuel = maxA + 1 → 1 ≤ fuel →
      retry_from op maxA attempt fuel = (.error (e maxA), fuel) := by
  intro fuel
  induction fuel with
  | zero => intro attempt h h1; omega
  | succ fuel ih =>
    intro attempt h _
    by_cases ha : attempt = maxA
    · have hf0 : fuel = 0 := by omega
      subst ha
      subst hf0
      simp [retry_from, hop attempt, hr attempt]
    · have hrec := ih (attempt + 1) (by omega) (by omega)
      simp [retry_from, hop attempt, hr attempt, ha, hrec]

/-- Claim C4: an operation failing with a retryable error on every
invocation is invoked exactly `max_attempts = 3` times by `retry_async`
and the error of the third attempt is re-raised unchanged; an operation
failing with a non-retryable error is invoked exactly once and that error
propagates immediately. -/
theorem retry_async_attempt_counts {α : Type} (cfg : RetryConfig)
    (h3 : cfg.max_attempts = 3)
    (op1 : ℕ → Except PyExc α) (e : ℕ → PyExc)
    (hop1 : ∀ k, op1 k = .error (e k))
    (hr : ∀ k, is_retryable_exception (e k) = true)
    (op2 : ℕ → Except PyExc α) (e0 : PyExc)
    (hop2 : op2 1 = .error e0) (hf : is_retryable_exception e0 = false) :
    retry_async cfg op1 = (.error (e 3), 3) ∧
    retry_async cfg op2 = (.error e0, 1) := by
  constructor
  · have h := retry_from_all_retryable op1 e hop1 hr 3 3 1 (by omega) (by omega)
    simp [retry_async, h3, h]
  · simp only [retry_async, h3]
    norm_num
    show retry_from op2 3 1 3 = (.error e0, 1)
    rw [show (3 : ℕ) = 2 + 1 from rfl]
    simp [retry_from, hop2, hf]

/-- Witness for `retry_async_attempt_counts` at the default config with a
permanently failing retryable operation and a fatal operation. -/
theorem retry_async_attempt_counts_witness :
    retry_async std_retry_config (fun _ => (.error .retryableError : Except PyExc ℕ))
        = (.error .retryableError, 3) ∧
    retry_async std_retry_config (fun _ => (.error .nonRetryableError : Except PyExc ℕ))
        = (.error .nonRetryableError, 1) :=
  retry_async_attempt_counts std_retry_config rfl
    (fun _ => .error .retryableError) (fun _ => .retryableError)
    (fun _ => rfl) (fun _ => rfl)
    (fun _ => .error .nonRetryableError) .nonRetryableError rfl rfl

/-- Claim C5 (amended): for attempt `k ≥ 1` the delay is the clamped
exponential formula, plus the sampled jitter when enabled, floored at
zero.  When the clamped value `d` is nonnegative the floor is inert:
without jitter the result is exactly `d`, and with jitter bounded by
`±d/10` it lies in `[max 0 (0.9·d), 1.1·d]`; for configs that make `d`
negative the function returns `0`, not `d`. -/
theorem calculate_delay_spec (cfg : RetryConfig) (k : ℕ) (j : ℚ) (hk : 1 ≤ k) :
    calculate_delay cfg k j =
      max 0 (min (cfg.base_delay * cfg.exponential_base ^ (k - 1) * cfg.backoff_multiplier)
          cfg.max_delay + (if cfg.jitter = true then j else 0)) ∧
    (cfg.jitter = false →
      0 ≤ min (cfg.base_delay * cfg.exponential_base ^ (k - 1) * cfg.backoff_multiplier)
          cfg.max_delay →
      calculate_delay cfg k j =
        min (cfg.base_delay * cfg.exponential_base ^ (k - 1) * cfg.backoff_multiplier)
          cfg.max_delay) ∧
    (cfg.jitter = true →
      ∀ d, d = min (cfg.base_delay * cfg.exponential_base ^ (k - 1) * cfg.backoff_multiplier)
          cfg.max_delay →
      0 ≤ d → -(d/10) ≤ j → j ≤ d/10 →
      max 0 (9/10 * d) ≤ calculate_delay cfg k j ∧ calculate_delay cfg k j ≤ 11/10 * d) := by
  refine ⟨?_, ?_, ?_⟩
  · by_cases hj : cfg.jitter = true <;> simp [calculate_delay, hj]
  · intro hj hd
    simp only [calculate_delay, hj]
    simp [max_eq_right hd]
  · intro hj d hdef hd hjlo hjhi
    have hsum : 0 ≤ d + j := by linarith
    have hcd : calculate_delay cfg k j = d + j := by
      simp only [calculate_delay, hj, if_true, ← hdef]
      exact max_eq_right hsum
    constructor
    · have h9 : max (0:ℚ) (9/10 * d) = 9/10 * d := max_eq_right (by linarith)
      rw [hcd, h9]
      linarith
    · rw [hcd]
      linarith

/-- Witness for `calculate_delay_spec` at the default config, attempt 2,
zero sampled jitter. -/
theorem calculate_delay_spec_witness :
    (calculate_delay std_retry_config 2 0 =
      max 0 (min (std_retry_config.base_delay * std_retry_config.exponential_base ^ (2 - 1) *
          std_retry_config.backoff_multiplier) std_retry_config.max_delay +
        (if std_retry_config.jitter = true then 0 else 0)) ∧
    (std_retry_config.jitter = false →
      0 ≤ min (std_retry_config.base_delay * std_retry_config.exponential_base ^ (2 - 1) *
          std_retry_config.backoff_multiplier) std_retry_config.max_delay →
      calculate_delay std_retry_config 2 0 =
        min (std_retry_config.base_delay * std_retry_config.exponential_base ^ (2 - 1) *
          std_retry_config.backoff_multiplier) std_retry_config.max_delay) ∧
    (std_retry_config.jitter = true →
      ∀ d, d = min (std_retry_config.base_delay * std_retry_config.exponential_base ^ (2 - 1) *
          std_retry_config.backoff_multiplier) std_retry_config.max_delay →
      0 ≤ d → -(d/10) ≤ (0:ℚ) → (0:ℚ) ≤ d/10 →
      max 0 (9/10 * d) ≤ calculate_delay std_retry_config 2 0 ∧
        calculate_delay std_retry_config 2 0 ≤ 11/10 * d)) :=
  calculate_delay_spec std_retry_config 2 0 (by norm_num)

/-- At page 1 the `if max_pages and current_page > max_pages` guard of
`parse_all_pages` can never fire (Python truthiness: a zero limit means no
limit, and a nonzero limit is at least 1). -/
theorem page_limit_not_reached_at_one (maxPages : Option ℕ) :
    page_limit_reached maxPages 1 = false := by
  cases maxPages with
  | none => rfl
  | some m =>
    simp [page_limit_reached]

/-- Claim C7: a first page whose pagination metadata has `has_next = false`
makes the walker yield exactly that page's (dedup-filtered) batch and end
the stream, and a first page with zero extracted listings ends the stream
with zero batches yielded. -/
theorem parse_all_pages_first_page_spec (pages : ℕ → PageResult)
    (maxPages : Option ℕ) (repo : Option (List String)) (fuel : ℕ) :
    ((pages 1).projects = [] →
      parse_all_pages pages maxPages repo (fuel + 1) 1 = []) ∧
    ((pages 1).pagination.has_next = false → (pages 1).projects ≠ [] →
      parse_all_pages pages maxPages repo (fuel + 1) 1 =
        [repo_filter repo (pages 1).projects]) := by
  constructor
  · intro hempty
    simp [parse_all_pages, page_limit_not_reached_at_one, hempty]
  · intro hnext hnonempty
    simp [parse_all_pages, page_limit_not_reached_at_one, hnext, hnonempty]

/-- Witness for `parse_all_pages_first_page_spec` on a one-page site with
one listing and a repository that already contains a different id. -/
theorem parse_all_pages_first_page_spec_witness :
    parse_all_pages
        (fun n => if n = 1 then ⟨[⟨"101", "t"⟩], ⟨1, 1, false, none, 0⟩⟩
          else ⟨[], ⟨1, 1, false, none, 0⟩⟩)
        none (some ["200"]) 4 1
      = [[⟨"101", "t"⟩]] :=
  ((parse_all_pages_first_page_spec
      (fun n => if n = 1 then ⟨[⟨"101", "t"⟩], ⟨1, 1, false, none, 0⟩⟩
        else ⟨[], ⟨1, 1, false, none, 0⟩⟩)
      none (some ["200"]) 3).2 rfl (by decide)).trans (by decide)

/-- `acquire` never changes the adaptive delay. -/
theorem acquire_state_current_delay (cfg : RateLimitConfig) (s : RateLimiterState)
    (now : ℚ) : (acquire cfg s now).state.current_delay = s.current_delay := by
  simp only [acquire, add_request, cleanup_windows, wait_if_blocked]
  split <;> rfl

/-- The delay `report_error` leaves behind, as a conditional expression. -/
theorem report_error_current_delay (cfg : RateLimitConfig) (s : RateLimiterState)
    (now : ℚ) (status : Option ℕ) :
    (report_error cfg s now status).current_delay =
      if cfg.adaptive = false then s.current_delay
      else if critical_status status = true then
        min (s.current_delay * cfg.backoff_factor) cfg.max_delay
      else s.current_delay := by
  by_cases hA : cfg.adaptive = false
  · simp [report_error, hA]
  · by_cases hc : critical_status status = true
    · by_cases h9 : status = some 429
      · subst h9
        simp [report_error, hA, hc, increase_delay, apply_temporary_block]
      · simp [report_error, hA, hc, h9, increase_delay]
    · simp [report_error, hA, hc]

/-- The delay `report_success` leaves behind, as a conditional
expression. -/
theorem report_success_current_delay (cfg : RateLimitConfig) (s : RateLimiterState) :
    (report_success cfg s).current_delay =
      if cfg.adaptive = false then s.current_delay
      else if 0 < s.consecutive_errors ∧ s.consecutive_errors - 1 = 0 ∧
          cfg.min_delay < s.current_delay then
        max (s.current_delay / cfg.backoff_factor) cfg.min_delay
      else s.current_delay := by
  by_cases hA : cfg.adaptive = false
  · simp [report_success, hA]
  · by_cases he : 0 < s.consecutive_errors
    · by_cases hz : s.consecutive_errors - 1 = 0
      · by_cases hgt : cfg.min_delay < s.current_delay
        · simp [report_success, hA, he, hz, decrease_delay, hgt]
        · simp [report_success, hA, he, hz, decrease_delay, hgt]
      · simp [report_success, hA, he, hz]
    · simp [report_success, hA, he]

/-- One limiter operation preserves `min_delay ≤ current_delay ≤ max_delay`
when the config has a nonnegative floor below its ceiling and a backoff
factor of at least one. -/
theorem rl_step_delay_bounds (cfg : RateLimitConfig)
    (h0 : 0 ≤ cfg.min_delay) (h1 : cfg.min_delay ≤ cfg.max_delay)
    (hbf : 1 ≤ cfg.backoff_factor) (s : RateLimiterState)
    (hlo : cfg.min_delay ≤ s.current_delay) (hhi : s.current_delay ≤ cfg.max_delay)
    (op : RLOp) :
    cfg.min_delay ≤ (rl_step cfg s op).current_delay ∧
    (rl_step cfg s op).current_delay ≤ cfg.max_delay := by
  have hd0 : 0 ≤ s.current_delay := le_trans h0 hlo
  cases op with
  | acquire now =>
    rw [rl_step, acquire_state_current_delay]
    exact ⟨hlo, hhi⟩
  | reportError now status =>
    rw [rl_step, report_error_current_delay]
    split_ifs with hA hc
    · exact ⟨hlo, hhi⟩
    · have hmul : cfg.min_delay ≤ s.current_delay * cfg.backoff_factor :=
        le_trans hlo (le_mul_of_one_le_right hd0 hbf)
      exact ⟨le_min hmul h1, min_le_right _ _⟩
    · exact ⟨hlo, hhi⟩
  | reportSuccess =>
    rw [rl_step, report_success_current_delay]
    split_ifs with hA hc
    · exact ⟨hlo, hhi⟩
    · refine ⟨le_max_right _ _, max_le ?_ h1⟩
      exact le_trans (div_le_self hd0 hbf) hhi
    · exact ⟨hlo, hhi⟩
  | reset =>
    refine ⟨?_, ?_⟩
    · simp [rl_step, rl_reset]
    · simp only [rl_step, rl_reset]
      exact h1

/-- Claim C10 (amended): for every config with `0 ≤ min_delay ≤ max_delay`
and `backoff_factor ≥ 1`, the invariant
`min_delay ≤ current_delay ≤ max_delay` holds after construction and is
preserved by every sequence of `acquire`, `report_error`,
`report_success` and `reset` operations. -/
theorem delay_invariant_preserved (cfg : RateLimitConfig)
    (h0 : 0 ≤ cfg.min_delay) (h1 : cfg.min_delay ≤ cfg.max_delay)
    (hbf : 1 ≤ cfg.backoff_factor) (ops : List RLOp) :
    cfg.min_delay ≤ (rl_run cfg (rl_init cfg) ops).current_delay ∧
    (rl_run cfg (rl_init cfg) ops).current_delay ≤ cfg.max_delay := by
  suffices h : ∀ (ops : List RLOp) (s : RateLimiterState),
      cfg.min_delay ≤ s.current_delay → s.current_delay ≤ cfg.max_delay →
      cfg.min_delay ≤ (rl_run cfg s ops).current_delay ∧
      (rl_run cfg s ops).current_delay ≤ cfg.max_delay by
    exact h ops (rl_init cfg) (le_refl _) h1
  intro ops
  induction ops with
  | nil =>
    intro s hlo hhi
    exact ⟨hlo, hhi⟩
  | cons op ops ih =>
    intro s hlo hhi
    have hstep := rl_step_delay_bounds cfg h0 h1 hbf s hlo hhi op
    exact ih (rl_step cfg s op) hstep.1 hstep.2

/-- Witness for `delay_invariant_preserved`: the default config with a
sequence containing all four operations. -/
theorem delay_invariant_preserved_witness :
    std_rate_config.min_delay ≤
      (rl_run std_rate_config (rl_init std_rate_config)
        [RLOp.acquire 0, RLOp.reportError 1 (some 429), RLOp.reportSuccess,
          RLOp.reset]).current_delay ∧
    (rl_run std_rate_config (rl_init std_rate_config)
        [RLOp.acquire 0, RLOp.reportError 1 (some 429), RLOp.reportSuccess,
          RLOp.reset]).current_delay ≤ std_rate_config.max_delay :=
  delay_invariant_preserved std_rate_config
    (by norm_num [std_rate_config]) (by norm_num [std_rate_config])
    (by norm_num [std_rate_config])
    [RLOp.acquire 0, RLOp.reportError 1 (some 429), RLOp.reportSuccess, RLOp.reset]

/-- A window none of whose entries has aged out is untouched by cleanup. -/
theorem dropWhile_eq_self_of_forall {α : Type} (p : α → Bool) (l : List α)
    (h : ∀ x ∈ l, p x = false) : l.dropWhile p = l := by
  cases l with
  | nil => rfl
  | cons a l => simp [List.dropWhile, h a (List.mem_cons_self a l)]

/-- `foldl max` never goes below its initial accumulator. -/
theorem le_foldl_max (l : List ℚ) : ∀ (b : ℚ), b ≤ l.foldl max b := by
  induction l with
  | nil => intro b; exact le_refl b
  | cons a l ih => intro b; exact le_trans (le_max_left b a) (ih (max b a))

/-- `foldl max` dominates every member of the list. -/
theorem mem_le_foldl_max (a : ℚ) : ∀ (l : List ℚ), a ∈ l → ∀ (b : ℚ), a ≤ l.foldl max b := by
  intro l
  induction l with
  | nil => intro h; cases h
  | cons c l ih =>
    intro h b
    rw [List.foldl_cons]
    rcases List.mem_cons.mp h with h1 | h2
    · subst h1
      exact le_trans (le_max_right b a) (le_foldl_max l (max b a))
    · exact ih h2 (max b c)

/-- An `acquire` at time `t` on an unblocked limiter whose three windows
hold the same timestamps `prev`, all within one second of `t` and strictly
fewer than the per-second ceiling (itself below the other two ceilings),
performs no block wait and no rate wait and just appends `t`. -/
theorem acquire_under_limit (cfg : RateLimitConfig) (s : RateLimiterState)
    (prev : List ℚ) (t : ℚ)
    (hb : s.is_blocked = false)
    (hw2 : s.second_window = prev) (hwm : s.minute_window = prev)
    (hwh : s.hour_window = prev)
    (hkeep : ∀ x ∈ prev, t - x ≤ 1)
    (hlen : (prev.length : ℚ) < cfg.requests_per_second)
    (hm : cfg.requests_per_second ≤ cfg.requests_per_minute)
    (hh : cfg.requests_per_second ≤ cfg.requests_per_hour) :
    acquire cfg s t =
      ⟨0, 0, if 0 < s.current_delay then s.current_delay else 0,
        { s with second_window := prev ++ [t], minute_window := prev ++ [t], hour_window := prev ++ [t] }⟩ := by
  have hwif : wait_if_blocked s t = (0, s) := by
    simp [wait_if_blocked, hb]
  have hdrop : ∀ (h : ℚ), 1 ≤ h →
      cleanup_window h t prev = prev := by
    intro h h1
    refine dropWhile_eq_self_of_forall _ prev (fun x hx => ?_)
    simp only [decide_eq_false_iff_not, not_lt]
    linarith [hkeep x hx]
  have hclean : cleanup_windows t s = s := by
    have e2 : cleanup_window 1 t s.second_window = s.second_window := by
      rw [hw2]
      exact hdrop 1 (by norm_num)
    have em : cleanup_window 60 t s.minute_window = s.minute_window := by
      rw [hwm]
      exact hdrop 60 (by norm_num)
    have eh : cleanup_window 3600 t s.hour_window = s.hour_window := by
      rw [hwh]
      exact hdrop 3600 (by norm_num)
    rw [cleanup_windows, e2, em, eh]
  have hnone : ∀ (lim hor : ℚ), cfg.requests_per_second ≤ lim →
      window_delay lim hor t prev = none := by
    intro lim hor hlim
    have hno : ¬ lim ≤ (prev.length : ℚ) := by
      rw [not_le]
      linarith
    simp only [window_delay]
    rw [if_neg hno]
  have hdel : enforce_delay cfg t s = 0 := by
    simp only [enforce_delay]
    rw [hw2, hwm, hwh, hnone _ 1 (le_refl _), hnone _ 60 hm, hnone _ 3600 hh]
    rfl
  show acquire cfg s t = _
  rw [acquire, hwif]
  simp only [add_zero]
  rw [hclean, hdel]
  simp only [add_zero]
  simp [add_request, hw2, hwm, hwh]

/-- A run of `acquire` calls at nondecreasing times within one second,
starting from an unblocked state whose three windows hold `prev`, incurs
no block wait and no rate wait at any call while the total count stays at
or below the per-second ceiling (itself below the other ceilings); the
windows end up holding exactly `prev ++ ts` and the delay and block flag
are untouched. -/
theorem acquire_seq_under_limit (cfg : RateLimitConfig)
    (hm : cfg.requests_per_second ≤ cfg.requests_per_minute)
    (hh : cfg.requests_per_second ≤ cfg.requests_per_hour) :
    ∀ (ts prev : List ℚ) (s : RateLimiterState),
      s.is_blocked = false →
      s.second_window = prev → s.minute_window = prev → s.hour_window = prev →
      ((prev.length : ℚ) + (ts.length : ℚ) ≤ cfg.requests_per_second) →
      (prev ++ ts).Pairwise (fun a b => a ≤ b ∧ b - a ≤ 1) →
      (∀ r ∈ (acquire_seq cfg s ts).1, r.block_wait = 0 ∧ r.rate_wait = 0) ∧
      (acquire_seq cfg s ts).2.second_window = prev ++ ts ∧
      (acquire_seq cfg s ts).2.minute_window = prev ++ ts ∧
      (acquire_seq cfg s ts).2.hour_window = prev ++ ts ∧
      (acquire_seq cfg s ts).2.is_blocked = false ∧
      (acquire_seq cfg s ts).2.current_delay = s.current_delay := by
  intro ts
  induction ts with
  | nil =>
    intro prev s hb hw2 hwm hwh hlen hpw
    simp only [acquire_seq, List.append_nil]
    refine ⟨?_, hw2, hwm, hwh, hb, trivial⟩
    intro r hr
    cases hr
  | cons t ts ih =>
    intro prev s hb hw2 hwm hwh hlen hpw
    obtain ⟨hp1, hp2, hcross⟩ := List.pairwise_append.mp hpw
    have hkeep : ∀ x ∈ prev, t - x ≤ 1 := by
      intro x hx
      have hcx := hcross x hx t (List.mem_cons_self t ts)
      linarith [hcx.2]
    have hlen1 : (prev.length : ℚ) < cfg.requests_per_second := by
      have hts : (0 : ℚ) ≤ (ts.length : ℚ) := by positivity
      have : ((t :: ts).length : ℚ) = (ts.length : ℚ) + 1 := by
        push_cast [List.length_cons]
        ring
      rw [this] at hlen
      linarith
    have hA := acquire_under_limit cfg s prev t hb hw2 hwm hwh hkeep hlen1 hm hh
    have hpw' : ((prev ++ [t]) ++ ts).Pairwise (fun a b => a ≤ b ∧ b - a ≤ 1) := by
      rw [List.append_assoc, List.singleton_append]
      exact hpw
    have hlen' : ((prev ++ [t]).length : ℚ) + (ts.length : ℚ) ≤ cfg.requests_per_second := by
      have : ((t :: ts).length : ℚ) = (ts.length : ℚ) + 1 := by
        push_cast [List.length_cons]
        ring
      rw [this] at hlen
      push_cast [List.length_append, List.length_singleton]
      linarith
    have hrec := ih (prev ++ [t])
      { s with second_window := prev ++ [t], minute_window := prev ++ [t], hour_window := prev ++ [t] }
      hb rfl rfl rfl hlen' hpw'
    obtain ⟨hall, hs2, hsm, hsh, hsb, hsd⟩ := hrec
    have hassoc : (prev ++ [t]) ++ ts = prev ++ t :: ts := by
      rw [List.append_assoc, List.singleton_append]
    refine ⟨?_, ?_, ?_, ?_, ?_, ?_⟩
    · intro r hr
      simp only [acquire_seq, hA] at hr
      rcases List.mem_cons.mp hr with h1 | h2
      · subst h1
        exact ⟨rfl, rfl⟩
      · exact hall r h2
    · simp only [acquire_seq, hA]
      rw [hs2, hassoc]
    · simp only [acquire_seq, hA]
      rw [hsm, hassoc]
    · simp only [acquire_seq, hA]
      rw [hsh, hassoc]
    · simp only [acquire_seq, hA]
      rw [hsb]
    · simp only [acquire_seq, hA]
      rw [hsd]

/-- An `acquire` on an unblocked limiter whose second window is full
(at or above the per-second ceiling), with its oldest entry `t0` still
inside the one-second horizon at call time `tN`, sleeps at least the time
remaining until `t0` leaves the window. -/
theorem acquire_rate_wait_lower (cfg : RateLimitConfig) (s : RateLimiterState)
    (tN t0 : ℚ) (rest : List ℚ)
    (hb : s.is_blocked = false)
    (hw2 : s.second_window = t0 :: rest)
    (hspan : tN - t0 ≤ 1)
    (hN : cfg.requests_per_second ≤ ((t0 :: rest).length : ℚ)) :
    1 - (tN - t0) ≤ (acquire cfg s tN).rate_wait := by
  have hwif : wait_if_blocked s tN = (0, s) := by
    simp [wait_if_blocked, hb]
  have hrw : (acquire cfg s tN).rate_wait = enforce_delay cfg tN (cleanup_windows tN s) := by
    rw [acquire, hwif]
    simp only [add_zero]
  have hcw : cleanup_window 1 tN s.second_window = t0 :: rest := by
    rw [hw2, cleanup_window, List.dropWhile]
    have : decide ((1:ℚ) < tN - t0) = false := by
      simp only [decide_eq_false_iff_not, not_lt]
      linarith
    rw [this]
  have hwin2 : (cleanup_windows tN s).second_window = t0 :: rest := by
    rw [cleanup_windows]
    exact hcw
  rw [hrw]
  by_cases hd : 0 < 1 - (tN - t0)
  · have hsome : window_delay cfg.requests_per_second 1 tN
        (cleanup_windows tN s).second_window = some (1 - (tN - t0)) := by
      rw [hwin2]
      simp only [window_delay, if_pos hN]
      rw [if_pos]
      linarith
    simp only [enforce_delay, hsome]
    apply mem_le_foldl_max
    rw [Option.toList_some]
    exact List.mem_append_left _ (List.mem_cons_self _ _)
  · have h0 : 1 - (tN - t0) ≤ 0 := by linarith
    calc 1 - (tN - t0) ≤ 0 := h0
    _ ≤ _ := by
      simp only [enforce_delay]
      exact le_foldl_max _ 0

/-- Claim C3 (amended): for a limiter whose per-second ceiling `N` does
not exceed the per-minute and per-hour ceilings, `N` acquires at
nondecreasing times within one second incur no block wait and no
rate-window wait (only the baseline `current_delay` pacing applies), and
an `(N+1)`-th acquire at a time `tN` while the oldest timestamp `t0` is
still inside the one-second window is delayed at least until `t0` leaves
it.  Without the ceiling-ordering side condition the first part fails
(see the minute-window counterexample). -/
theorem rate_window_burst_spec (cfg : RateLimitConfig) (N : ℕ)
    (times : List ℚ) (t0 tN : ℚ) (rest : List ℚ)
    (hrps : cfg.requests_per_second = (N : ℚ))
    (hm : cfg.requests_per_second ≤ cfg.requests_per_minute)
    (hh : cfg.requests_per_second ≤ cfg.requests_per_hour)
    (htimes : times = t0 :: rest)
    (hlen : times.length = N)
    (hpw : times.Pairwise (fun a b => a ≤ b ∧ b - a ≤ 1))
    (hspan : tN - t0 ≤ 1) :
    (∀ r ∈ (acquire_seq cfg (rl_init cfg) times).1,
      r.block_wait = 0 ∧ r.rate_wait = 0) ∧
    1 - (tN - t0) ≤
      (acquire cfg (acquire_seq cfg (rl_init cfg) times).2 tN).rate_wait := by
  have hseq := acquire_seq_under_limit cfg hm hh times [] (rl_init cfg)
    rfl rfl rfl rfl
    (by
      rw [hrps, hlen]
      norm_num)
    (by simpa using hpw)
  obtain ⟨hall, hw2, hwm, hwh, hb, hcd⟩ := hseq
  refine ⟨hall, ?_⟩
  refine acquire_rate_wait_lower cfg _ tN t0 rest hb ?_ hspan ?_
  · rw [hw2]
    simpa using htimes
  · rw [hrps, ← htimes, hlen]

/-- Witness for `rate_window_burst_spec`: ceiling 2, two calls at 0 and
0.5 seconds, a third call at 0.75 seconds. -/
theorem rate_window_burst_spec_witness :
    (∀ r ∈ (acquire_seq two_per_second_config (rl_init two_per_second_config)
        [0, 1/2]).1, r.block_wait = 0 ∧ r.rate_wait = 0) ∧
    1 - (3/4 - 0) ≤
      (acquire two_per_second_config
        (acquire_seq two_per_second_config (rl_init two_per_second_config)
          [0, 1/2]).2 (3/4)).rate_wait :=
  rate_window_burst_spec two_per_second_config 2 [0, 1/2] 0 (3/4) [1/2]
    (by norm_num [two_per_second_config])
    (by norm_num [two_per_second_config])
    (by norm_num [two_per_second_config])
    rfl rfl
    (by norm_num [List.pairwise_cons])
    (by norm_num)
